import Mathlib

/-!
# Verification of the claude-code-mcp command/file capability layer

Shallow embedding of the security-relevant logic of the `claude-code-mcp`
server:

* the `bash` tool's command validation pipeline (empty check, banned-command
  exact and prefix checks, dangerous-pattern scan, length ceiling, timeout and
  output clamps, network opt-in check) from `src/server/tools.ts`
  (the full variant, `src/unnamed/part_006`);
* the `executeCommand` clamps from `src/utils/bash.ts`
  (the full variant, `src/unnamed/part_009`);
* `readFile` / `writeFile` / `listFiles` / `grepSearch` from
  `src/utils/file.ts`;
* the environment-variable redaction of the `env://info` resource from
  `src/server/resources.ts` (`src/unnamed/part_007`).

Commands and file contents are modelled as Lean `String`s (JavaScript string
indices are UTF-16 code units; for the code points involved here the two
agree, and all scanning logic below is defined on `List Char`).  JavaScript
numbers are modelled as `Int` where signs matter and `Nat` where the source
only ever sees non-negative values.  External effects (the spawned process,
the real filesystem, `process.env`) are modelled as explicit parameters, so
"the process is never spawned" becomes "the result does not depend on the
executor function".
-/

/-! ## JavaScript character classes

`\s` in a JavaScript regular expression matches the WhiteSpace and
LineTerminator productions; `String.prototype.trim` strips the same set. -/

/-- The character class matched by `\s` in a JavaScript regex (and stripped
by `String.prototype.trim`). -/
def isJsSpace (c : Char) : Bool :=
  c = ' ' || c = '\t' || c = '\n' || c = '\r' || c = '\x0b' || c = '\x0c' ||
  c = ' ' || c = ' ' || (' ' ≤ c && c ≤ ' ') ||
  c = ' ' || c = ' ' || c = ' ' || c = ' ' ||
  c = '　' || c = '﻿'

/-- JavaScript LineTerminator characters: `.` in a regex matches anything
except these. -/
def isLineTerm (c : Char) : Bool :=
  c = '\n' || c = '\r' || c = ' ' || c = ' '

/-- A character of the class `[a-zA-Z0-9_]` (regex `\w`). -/
def isWordChar (c : Char) : Bool :=
  ('a' ≤ c && c ≤ 'z') || ('A' ≤ c && c ≤ 'Z') || ('0' ≤ c && c ≤ '9') || c = '_'

/-- A character of the class `[a-z]`. -/
def isLowerAz (c : Char) : Bool :=
  'a' ≤ c && c ≤ 'z'

/-- `String.prototype.trim` on a character list: strip `isJsSpace`
characters from both ends. -/
def jsTrimList (l : List Char) : List Char :=
  ((l.dropWhile isJsSpace).reverse.dropWhile isJsSpace).reverse

/-- `command.trim()` as used by the tool handlers. -/
def jsTrim (s : String) : String :=
  String.mk (jsTrimList s.toList)

/-! ## The banned-command deny-list

Transcribed verbatim from the `bash` tool handler (`bannedCommands` in
`src/unnamed/part_006`, lines 63–98). -/

/-- The fixed deny-list of base commands of the `bash` tool. -/
def bannedCommands : List String := [
  -- Network tools
  "curl", "curlie", "wget", "axel", "aria2c", "nc", "netcat", "ncat", "telnet",
  "nmap", "wireshark", "tcpdump", "iptables", "ip6tables", "ufw", "firewall-cmd",
  -- Web browsers and HTTP clients
  "lynx", "w3m", "links", "httpie", "xh", "http-prompt", "chrome", "chromium",
  "firefox", "safari", "opera", "brave", "edge",
  -- Remote access
  "ssh", "scp", "sftp", "ftp", "rsync", "rcp", "rdp", "rdesktop", "vnc", "teamviewer",
  -- System modification
  "sudo", "su", "doas", "chown", "chmod", "chgrp", "chroot", "mount", "umount",
  "mkfs", "fdisk", "parted", "dd", "mkswap", "swapon", "swapoff",
  -- Process control
  "kill", "killall", "pkill", "reboot", "shutdown", "halt", "poweroff", "systemctl",
  "service", "init", "crontab", "at",
  -- Shell and environment
  "alias", "export", "source", "eval", "exec", "env", "setenv", "unset",
  -- Package management
  "apt", "apt-get", "aptitude", "dpkg", "yum", "dnf", "rpm", "pacman", "brew",
  "pip", "pip3", "npm", "yarn", "gem", "cargo",
  -- User management
  "useradd", "userdel", "usermod", "groupadd", "groupdel", "groupmod", "passwd",
  -- Potentially dangerous utilities
  "nohup", "screen", "tmux", "bg", "fg", "nice", "ionice", "chrt", "timeout",
  -- File deletion/modification
  "shred", "wipe", "srm", "rm -rf", "mkfifo"]

/-- The secondary deny-list of network-diagnostic commands, rejected unless
`allow_network === true` (`networkCommands` in `src/unnamed/part_006`,
line 194). -/
def networkCommands : List String :=
  ["ping", "traceroute", "dig", "nslookup", "host", "whois", "netstat", "ss",
   "ifconfig", "ip"]

/-- `command.split(' ')[0]`: the substring before the first space
character (note: a plain `' '`, not the full `\s` class). -/
def baseCommand (s : String) : String :=
  String.mk (s.toList.takeWhile (fun c => c ≠ ' '))

/-- The first whitespace-delimited token of a command: skip leading
whitespace, then take the maximal run of non-whitespace characters
(whitespace is the JavaScript `\s` class). -/
def firstWsToken (s : String) : String :=
  String.mk ((s.toList.dropWhile isJsSpace).takeWhile (fun c => !isJsSpace c))

/-- The maximal non-whitespace prefix of a command.  It equals
`firstWsToken` exactly when the command has no leading whitespace; on a
command with leading whitespace it is `""`, mirroring how both
banned-command checks (the `split(' ')[0]` exact match and the `^`-anchored
prefix regexes) see such a command. -/
def leadingToken (s : String) : String :=
  String.mk (s.toList.takeWhile (fun c => !isJsSpace c))

/-- After a matched prefix, the regex `(\s|$)` requires end-of-string or a
whitespace character. -/
def afterPrefixOk (rest : List Char) : Bool :=
  match rest with
  | [] => true
  | c :: _ => isJsSpace c

/-- `command.match(new RegExp("^" + cmd + "(\\s|$)"))`: the deny-list entries
contain no regex metacharacters, so the test is: `cmd` is a literal prefix of
`command` followed by whitespace or end-of-string. -/
def bannedPrefixTest (command : String) (cmd : String) : Bool :=
  cmd.toList.isPrefixOf command.toList &&
    afterPrefixOk (command.toList.drop cmd.toList.length)

/-- The two banned-command checks of the `bash` tool, in source order:
exact match of `command.split(' ')[0]` against the list, then the
prefix-regex loop.  Returns the name reported in the error message. -/
def bannedMatch (command : String) : Option String :=
  if bannedCommands.contains (baseCommand command) then
    some (baseCommand command)
  else
    bannedCommands.find? (fun b => bannedPrefixTest command b)

/-! ## The dangerous-pattern scan

The `bash` tool tests the command against fourteen regexes, in order, and
rejects on the first match (`dangerousPatterns` in `src/unnamed/part_006`,
lines 130–155).  Each regex is implemented here as a decidable scanner over
the character list; `.` never matches a LineTerminator. -/

/-- Search for character `c` with no LineTerminator before it (the tail of a
`x.*y`-style regex match, which cannot cross a line). -/
def sameLineChar (c : Char) : List Char → Bool
  | [] => false
  | x :: rest => if x = c then true else !isLineTerm x && sameLineChar c rest

/-- Pattern 1, `[;&|]`: command separators and pipes. -/
def sepTest (l : List Char) : Bool :=
  l.any (fun c => c = ';' || c = '&' || c = '|')

/-- Pattern 2, `` `.*` ``: a backtick later closed by a second backtick on
the same line.  (A lone backtick does not match.) -/
def backtickTest : List Char → Bool
  | [] => false
  | c :: rest =>
    (c = '\x60' && sameLineChar '\x60' rest) || backtickTest rest

/-- Pattern 3, `\$\(.*\)`: `$(` later closed by `)` on the same line. -/
def dollarParenTest : List Char → Bool
  | [] => false
  | '$' :: '(' :: rest => sameLineChar ')' rest || dollarParenTest ('(' :: rest)
  | _ :: rest => dollarParenTest rest

/-- Patterns 4 and 5, `>\s*\S+` and `<\s*\S+`: the redirection character
followed (after optional whitespace) by at least one non-whitespace
character. -/
def redirTest (ch : Char) : List Char → Bool
  | [] => false
  | c :: rest =>
    (c = ch && !(rest.dropWhile isJsSpace).isEmpty) || redirTest ch rest

/-- Pattern 6, `2>\s*\S+`: error redirection. -/
def errRedirTest : List Char → Bool
  | [] => false
  | '2' :: '>' :: rest =>
    !(rest.dropWhile isJsSpace).isEmpty || errRedirTest ('>' :: rest)
  | _ :: rest => errRedirTest rest

/-- Pattern 7, `\$\x7b.*\x7d`: parameter expansion (`$` then an opening
brace, later closed by the matching brace on the same line). -/
def dollarBraceTest : List Char → Bool
  | [] => false
  | '$' :: '\x7b' :: rest => sameLineChar '\x7d' rest || dollarBraceTest ('\x7b' :: rest)
  | _ :: rest => dollarBraceTest rest

/-- Pattern 8, `\$[a-zA-Z0-9_]+`: variable expansion. -/
def dollarVarTest : List Char → Bool
  | [] => false
  | '$' :: c :: rest => isWordChar c || dollarVarTest (c :: rest)
  | _ :: rest => dollarVarTest rest

/-- Pattern 9, `\s\*\s`: a standalone asterisk. -/
def starTest : List Char → Bool
  | a :: '*' :: b :: rest =>
    (isJsSpace a && isJsSpace b) || starTest ('*' :: b :: rest)
  | _ :: rest => starTest rest
  | [] => false

/-- Scanner body for patterns 10 and 11 (`-[a-z]*r[a-z]*\s` and
`-[a-z]*f[a-z]*\s`): after the `-`, consume a run of `[a-z]`, remembering
whether `target` occurred, and succeed when whitespace follows a run that
contained it. -/
def flagScan (target : Char) (seen : Bool) : List Char → Bool
  | [] => false
  | c :: rest =>
    if isJsSpace c then seen
    else if !isLowerAz c then false
    else flagScan target (seen || c = target) rest

/-- Patterns 10 and 11: a `-` flag whose letter run contains `target`
(`r` for recursive, `f` for force) followed by whitespace. -/
def flagTest (target : Char) : List Char → Bool
  | [] => false
  | '-' :: rest => flagScan target false rest || flagTest target rest
  | _ :: rest => flagTest target rest

mutual
/-- Pattern 12 tail: after `rm` and at least one whitespace character;
optionally more whitespace, then either the target `/` or another flag
group. -/
def rmAfterSpace : List Char → Bool
  | [] => false
  | c :: rest =>
    if c = '/' then true
    else if isJsSpace c then rmAfterSpace rest
    else if c = '-' then rmGroup false rest
    else false

/-- Pattern 12 flag group `-[a-z]*[fr][a-z]*\s+`: a letter run that must
contain `f` or `r`, then whitespace, then back to `rmAfterSpace`. -/
def rmGroup (seenFR : Bool) : List Char → Bool
  | [] => false
  | c :: rest =>
    if isJsSpace c then seenFR && rmAfterSpace rest
    else if !isLowerAz c then false
    else rmGroup (seenFR || c = 'f' || c = 'r') rest
end

/-- Pattern 12, `rm\s+(-[a-z]*[fr][a-z]*\s+)*\/`: `rm` with optional
recursive/force flags targeting a path that starts at `/`. -/
def rmSlashTest : List Char → Bool
  | 'r' :: 'm' :: c :: rest =>
    (isJsSpace c && rmAfterSpace rest) || rmSlashTest ('m' :: c :: rest)
  | _ :: rest => rmSlashTest rest
  | [] => false

/-- Pattern 13 tail: search on the current line for `if=` and then, still on
the same line, `of=`. -/
def sameLineOfEq : List Char → Bool
  | 'o' :: 'f' :: '=' :: _ => true
  | c :: rest => !isLineTerm c && sameLineOfEq rest
  | [] => false

/-- Pattern 13 middle: search on the current line for `if=` followed by
`of=`. -/
def sameLineIfOf : List Char → Bool
  | 'i' :: 'f' :: '=' :: rest => sameLineOfEq rest || sameLineIfOf ('f' :: '=' :: rest)
  | c :: rest => !isLineTerm c && sameLineIfOf rest
  | [] => false

/-- Patterns 13–14 helper: `\s+` (one whitespace character then optionally
more) and then a same-line search `after`. -/
def spacePlusThen (after : List Char → Bool) : List Char → Bool
  | [] => false
  | c :: rest => isJsSpace c && (after rest || spacePlusThen after rest)

/-- Pattern 14 tail: search on the current line for `-` `flag` followed by a
whitespace character (the `\s+` needs one character to exist). -/
def sameLineFlagSpace (flag : Char) : List Char → Bool
  | '-' :: c :: d :: rest =>
    (c = flag && isJsSpace d) ||
      (!isLineTerm '-' && sameLineFlagSpace flag (c :: d :: rest))
  | c :: rest => !isLineTerm c && sameLineFlagSpace flag rest
  | [] => false

/-- Pattern 13, `dd\s+.*if=.*of=`: `dd` with both `if=` and `of=`
parameters. -/
def ddTest : List Char → Bool
  | 'd' :: 'd' :: rest =>
    spacePlusThen sameLineIfOf rest || ddTest ('d' :: rest)
  | _ :: rest => ddTest rest
  | [] => false

/-- Pattern 14a, `wget\s+.*-O\s+`: `wget` with an output-file flag. -/
def wgetTest : List Char → Bool
  | 'w' :: 'g' :: 'e' :: 't' :: rest =>
    spacePlusThen (sameLineFlagSpace 'O') rest || wgetTest ('g' :: 'e' :: 't' :: rest)
  | _ :: rest => wgetTest rest
  | [] => false

/-- Pattern 14b, `curl\s+.*-o\s+`: `curl` with an output-file flag. -/
def curlOutTest : List Char → Bool
  | 'c' :: 'u' :: 'r' :: 'l' :: rest =>
    spacePlusThen (sameLineFlagSpace 'o') rest || curlOutTest ('u' :: 'r' :: 'l' :: rest)
  | _ :: rest => curlOutTest rest
  | [] => false

/-- The ordered first-match scan over the fourteen dangerous patterns,
returning the index of the first matching pattern (the index determines the
`pattern.toString()` fragment of the error message). -/
def findDangerousPattern (command : String) : Option Nat :=
  let l := command.toList
  if sepTest l then some 0
  else if backtickTest l then some 1
  else if dollarParenTest l then some 2
  else if redirTest '>' l then some 3
  else if redirTest '<' l then some 4
  else if errRedirTest l then some 5
  else if dollarBraceTest l then some 6
  else if dollarVarTest l then some 7
  else if starTest l then some 8
  else if flagTest 'r' l then some 9
  else if flagTest 'f' l then some 10
  else if rmSlashTest l then some 11
  else if ddTest l then some 12
  else if wgetTest l then some 13
  else if curlOutTest l then some 14
  else none

/-! ## The bash tool's decision pipeline

`src/unnamed/part_006`, lines 48–230.  The handler's argument record and the
outcome of its validation phase.  `timeout`/`max_output` are JavaScript
numbers (absent = `undefined`); the clamps use JavaScript truthiness, under
which `0` selects the default. -/

/-- The input record of the `bash` tool
(`{ command, timeout, max_output, allow_network }`). -/
structure BashArgs where
  command : String
  timeout : Option Int
  max_output : Option Int
  allow_network : Option Bool
deriving DecidableEq, Repr

/-- The normalized execution parameters handed to `executeCommand`. -/
structure ExecutionPlan where
  command : String
  timeoutMs : Int
  maxOutputBytes : Int
deriving DecidableEq, Repr

/-- `timeout ? Math.min(timeout, 600000) : 60000` (lines 182–184): a
JavaScript `0` is falsy and selects the default; there is no lower clamp. -/
def validatedTimeout (timeout : Option Int) : Int :=
  match timeout with
  | none => 60000
  | some t => if t ≠ 0 then min t 600000 else 60000

/-- `max_output ? Math.min(max_output, 10485760) : 1048576`
(lines 187–189). -/
def validatedMaxOutput (maxOutput : Option Int) : Int :=
  match maxOutput with
  | none => 1048576
  | some m => if m ≠ 0 then min m 10485760 else 1048576

/-- The network-command loop (lines 194–207): the same `^cmd(\s|$)` prefix
regex, over the secondary list. -/
def networkMatch (command : String) : Option String :=
  networkCommands.find? (fun n => bannedPrefixTest command n)

/-- Outcome of the `bash` tool's validation phase, in the order the checks
appear in the handler. -/
inductive BashDecision where
  | emptyCommand
  | bannedCommand (name : String)
  | dangerousPattern (idx : Nat)
  | commandTooLong (len : Nat)
  | networkDenied (name : String)
  | execute (plan : ExecutionPlan)
deriving DecidableEq, Repr

/-- `true` on the two banned-command rejections. -/
def BashDecision.isBanned : BashDecision → Bool
  | .bannedCommand _ => true
  | _ => false

/-- `true` on a dangerous-pattern rejection. -/
def BashDecision.isDangerous : BashDecision → Bool
  | .dangerousPattern _ => true
  | _ => false

/-- The validation pipeline of the `bash` tool handler, checks in source
order: empty command, banned commands (exact then prefix), dangerous
patterns, the 500-character ceiling, then the network opt-in gate; an
accepted command yields the clamped `ExecutionPlan`.  JavaScript
`command.length` counts UTF-16 units; `String.length` agrees on the
commands considered here (no astral code points). -/
def bashDecision (a : BashArgs) : BashDecision :=
  if jsTrim a.command = "" then .emptyCommand
  else match bannedMatch a.command with
  | some name => .bannedCommand name
  | none =>
    match findDangerousPattern a.command with
    | some idx => .dangerousPattern idx
    | none =>
      if a.command.length > 500 then .commandTooLong a.command.length
      else
        let plan : ExecutionPlan :=
          { command := a.command
            timeoutMs := validatedTimeout a.timeout
            maxOutputBytes := validatedMaxOutput a.max_output }
        if a.allow_network ≠ some true then
          match networkMatch a.command with
          | some name => .networkDenied name
          | none => .execute plan
        else .execute plan

/-- Result of the external `executeCommand` call as seen by the handler:
success with stdout, a timeout rejection, or a `CommandExecutionError`
message. -/
inductive ExecOutcome where
  | success (stdout : String)
  | timedOut
  | failed (message : String)
deriving DecidableEq, Repr

/-- The response envelope `{ content: [{type: "text", text}], isError }`. -/
structure ToolResponse where
  text : String
  isError : Bool
deriving DecidableEq, Repr

/-- The full `bash` tool handler: validation, then — only on an accepted
command — the call to the executor (modelled as the function argument
`runner`), then response rendering.  Error texts follow the source messages
(quote characters around interpolations elided). -/
def bashRun (runner : ExecutionPlan → ExecOutcome) (a : BashArgs) : ToolResponse :=
  match bashDecision a with
  | .emptyCommand => ⟨"Error: Command cannot be empty", true⟩
  | .bannedCommand name =>
    ⟨"Error: The command " ++ name ++ " is not allowed for security reasons.", true⟩
  | .dangerousPattern _ =>
    ⟨"Error: Potentially dangerous command pattern detected. Please use simple commands without shell operators, redirections, or dangerous flags.", true⟩
  | .commandTooLong len =>
    ⟨"Error: Command is too long (" ++ toString len ++ " characters). Maximum allowed length is 500 characters.", true⟩
  | .networkDenied name =>
    ⟨"Error: Network command " ++ name ++ " requires allow_network: true parameter.", true⟩
  | .execute plan =>
    match runner plan with
    | .success out => ⟨out, false⟩
    | .timedOut =>
      ⟨"Command timed out after " ++ toString plan.timeoutMs ++ "ms. Consider increasing the timeout parameter or breaking the command into smaller parts.", true⟩
    | .failed msg => ⟨"Command execution error: " ++ msg, true⟩

/-! ## The executor's own clamps

`executeCommand` in `src/utils/bash.ts` (`src/unnamed/part_009`,
lines 35–43) re-applies the same truthiness-based clamps to the values it
receives before passing them to the process spawn. -/

/-- `timeout ? Math.min(timeout, 600000) : 60000` inside `executeCommand`. -/
def executeCommandTimeout (timeout : Option Int) : Int :=
  match timeout with
  | none => 60000
  | some t => if t ≠ 0 then min t 600000 else 60000

/-- `maxOutput ? Math.min(maxOutput, 10485760) : 1048576` inside
`executeCommand`. -/
def executeCommandMaxOutput (maxOutput : Option Int) : Int :=
  match maxOutput with
  | none => 1048576
  | some m => if m ≠ 0 then min m 10485760 else 1048576

/-- The wall-clock timeout actually given to the spawned process for a
request with the given `timeout` argument: the tool clamps, passes the
result to `executeCommand`, which clamps again. -/
def effectiveTimeout (timeout : Option Int) : Int :=
  executeCommandTimeout (some (validatedTimeout timeout))

/-! ## readFile: the line-slice logic

`readFile` in `src/utils/file.ts`, lines 59–80.  After the content is read,
slicing happens only when `offset` or `limit` is truthy; `offset` is 1-based.
`content.split('\n')` and `Array.prototype.slice`/`join` are modelled
directly on the character list. -/

/-- `content.split('\n')` (JavaScript `String.prototype.split` with a
one-character separator; the result is never empty). -/
def splitNl : List Char → List (List Char)
  | [] => [[]]
  | '\n' :: rest => [] :: splitNl rest
  | c :: rest =>
    match splitNl rest with
    | [] => [[c]]
    | s :: ss => (c :: s) :: ss

/-- `lines.join('\n')`. -/
def joinNl : List (List Char) → List Char
  | [] => []
  | [s] => s
  | s :: ss => s ++ '\n' :: joinNl ss

/-- Result of the pure slicing phase of `readFile`: the returned text, or
the `FileSystemError` thrown when the offset is past the last line (the
error message carries the offset and the line count). -/
inductive ReadResult where
  | ok (text : String)
  | offsetOutOfRange (offset total : Nat)
deriving DecidableEq, Repr

/-- JavaScript truthiness of an optional numeric argument: absent and `0`
are falsy. -/
def jsTruthyNat : Option Nat → Bool
  | none => false
  | some n => n ≠ 0

/-- The slicing phase of `readFile` (`src/utils/file.ts`, lines 59–80),
translated from the source:

```
if (offset || limit) {
  const lines = content.split('\n');
  const startLine = offset ? Math.max(0, offset - 1) : 0;
  if (startLine >= lines.length) throw …;
  const endLine = limit ? Math.min(lines.length, startLine + limit) : lines.length;
  content = lines.slice(startLine, endLine).join('\n');
}
return content;
```

`offset`/`limit` are the tool-schema numbers, non-negative by the
`FileReadRequest` invariant (the tool layer rejects values below 1), so they
are modelled as `Nat` and `Math.max(0, offset - 1)` is `max 0 (offset - 1)`
with truncated subtraction. -/
def readFileSlice (content : String) (offset limit : Option Nat) : ReadResult :=
  if jsTruthyNat offset || jsTruthyNat limit then
    let lines := splitNl content.toList
    let startLine := if jsTruthyNat offset then max 0 (offset.getD 0 - 1) else 0
    if startLine ≥ lines.length then
      .offsetOutOfRange (offset.getD 0) lines.length
    else
      let endLine := if jsTruthyNat limit then
          min lines.length (startLine + limit.getD 0)
        else lines.length
      .ok (String.mk (joinNl ((lines.drop startLine).take (endLine - startLine))))
  else .ok content

/-- Modelled from the spec (claim C6's wording, for comparison with
`readFileSlice`): with `offsetLine` given and greater than the file's total
line count the read fails with `OffsetOutOfRange`; otherwise, when
`offsetLine` or `limitLines` is given, the result is the slice
`lines[startLine .. endLine)` joined with newlines, where
`startLine = offsetLine − 1` if given else `0`, and
`endLine = min(total, startLine + limitLines)` if given else `total`; with
neither given, the full text unchanged. -/
def readFileSliceSpec (content : String) (offset limit : Option Nat) : ReadResult :=
  match offset, limit with
  | none, none => .ok content
  | _, _ =>
    let lines := splitNl content.toList
    let total := lines.length
    let startLine := match offset with | some o => o - 1 | none => 0
    let endLine := match limit with | some k => min total (startLine + k) | none => total
    match offset with
    | some o =>
      if o > total then .offsetOutOfRange o total
      else .ok (String.mk (joinNl ((lines.drop startLine).take (endLine - startLine))))
    | none =>
      .ok (String.mk (joinNl ((lines.drop startLine).take (endLine - startLine))))

/-! ## A filesystem state for write/read round trips

`writeFile` (`src/utils/file.ts`, lines 259–299) creates missing parent
directories (`fs.mkdir { recursive: true }`, which the flat map below makes
implicit) and then fully overwrites the file; `readFile` first checks
existence/readability and then slices.  The external filesystem is a flat
map from paths to contents. -/

/-- The filesystem: an association of paths to file contents. -/
def FsState := List (String × String)

/-- Read accessor: the first binding of the path. -/
def FsState.lookup (fs : FsState) (p : String) : Option String :=
  (List.find? (fun e => e.1 = p) fs).map Prod.snd

/-- `fs.writeFile(path, content)`: bind `p` to `c`, replacing any previous
binding (a full overwrite, never an append). -/
def FsState.write (fs : FsState) (p c : String) : FsState :=
  (p, c) :: List.filter (fun e => ¬ e.1 = p) fs

/-- Typed failures of the file utilities (`FileSystemError.operation`
values paired with the failure kind). -/
inductive FsError where
  | pathRequired
  | notFound (path : String)
  | offsetOutOfRange (offset total : Nat)
deriving DecidableEq, Repr

/-- `writeFile(filePath, content)`: rejects an empty path, creates parent
directories (implicit here), then overwrites. -/
def writeFileOp (fs : FsState) (p content : String) : Except FsError FsState :=
  if p = "" then .error .pathRequired
  else .ok (fs.write p content)

/-- `readFile(filePath, offset, limit)`: rejects an empty path, then checks
existence (`fs.access`), then reads and slices. -/
def readFileOp (fs : FsState) (p : String) (offset limit : Option Nat) :
    Except FsError String :=
  if p = "" then .error .pathRequired
  else
    match fs.lookup p with
    | none => .error (.notFound p)
    | some content =>
      match readFileSlice content offset limit with
      | .ok text => .ok text
      | .offsetOutOfRange o total => .error (.offsetOutOfRange o total)

/-! ## listFiles

`listFiles` in `src/utils/file.ts`, lines 101–168.  The directory's own
stat, the child list (`fs.readdir`) and each child's stat are external
inputs.  A child whose stat throws becomes a partial record with an `error`
field instead of failing the listing. -/

/-- The fields of `fs.stat` that the listing uses. -/
structure StatInfo where
  isDirectory : Bool
  size : Nat
  mtimeIso : String
deriving DecidableEq, Repr

/-- One element of the returned array: full metadata, or the partial
`{ name, path, error }` record produced when the child's stat throws. -/
inductive DirEntry where
  | full (name path : String) (isDirectory : Bool) (size : Nat) (modified : String)
  | failed (name path : String) (error : String)
deriving DecidableEq, Repr

/-- `path.join(dirPath, file)` for the paths used here. -/
def pathJoin (dir file : String) : String :=
  dir ++ "/" ++ file

/-- The per-child mapping of `listFiles`: try the stat, and on failure keep
a partial entry rather than aborting. -/
def listEntries (dirPath : String) (children : List String)
    (stat : String → Except String StatInfo) : List DirEntry :=
  children.map (fun file =>
    let filePath := pathJoin dirPath file
    match stat filePath with
    | .ok s => .full file filePath s.isDirectory s.size s.mtimeIso
    | .error e => .failed file filePath e)

/-- `listFiles(dirPath)`: empty-path check, then the stat of the directory
itself, then the per-child loop.  Both a failing stat and a
non-directory path surface as the same error: the inner
`Path is not a directory` throw is caught by its own enclosing `catch`,
which rewraps every failure as
`Directory does not exist or is not accessible`. -/
def listFilesOp (dirPath : String) (dirStat : Except String StatInfo)
    (children : List String) (stat : String → Except String StatInfo) :
    Except FsError (List DirEntry) :=
  if dirPath = "" then .error .pathRequired
  else
    match dirStat with
    | .error _ => .error (.notFound dirPath)
    | .ok s =>
      if !s.isDirectory then .error (.notFound dirPath)
      else .ok (listEntries dirPath children stat)

/-! ## grep

The `grep` tool handler (`src/unnamed/part_006`, lines 489–571) and
`grepSearch` (`src/utils/file.ts`, lines 213–251).  Regex compilation
(`new RegExp(pattern)`) and the external `grep -r` process are oracles:
`regexOk` says whether the pattern compiles, `proc` is the process result
observed by `grepSearch`. -/

/-- The `grep -r` child-process outcome: clean exit with stdout, or a
rejection carrying exit code and captured stdout. -/
inductive GrepProc where
  | success (stdout : String)
  | failure (code : Option Int) (stdout : String) (stderr : String)
deriving DecidableEq, Repr

/-- `grepSearch`: returns stdout on success; an exit code of 1 with empty
stdout is the no-match case and returns the sentinel; anything else becomes
a `CommandExecutionError`. -/
def grepSearch (proc : GrepProc) : Except String String :=
  match proc with
  | .success out => .ok out
  | .failure code out err =>
    if code = some 1 && out = "" then .ok "No matches found"
    else .error err

/-- Outcome of the `grep` tool handler. -/
inductive GrepOutcome where
  | emptyPattern
  | invalidPattern
  | result (text : String)
  | commandError (message : String)
deriving DecidableEq, Repr

/-- `isError` of the response the handler renders for each outcome. -/
def GrepOutcome.isError : GrepOutcome → Bool
  | .result _ => false
  | _ => true

/-- The `grep` tool handler: empty-pattern check, regex validation
(before any filesystem access — the process oracle is consulted only in the
final branch), then `grepSearch`. -/
def grepTool (regexOk : String → Bool) (proc : GrepProc) (pattern : String) :
    GrepOutcome :=
  if jsTrim pattern = "" then .emptyPattern
  else if !regexOk pattern then .invalidPattern
  else
    match grepSearch proc with
    | .ok text => .result text
    | .error e => .commandError e

/-! ## Environment-variable redaction

The `env://info` resource (`src/unnamed/part_007`, lines 151–161):

```
const filteredEnv = {};
const sensitiveKeys = ['TOKEN', 'KEY', 'SECRET', 'PASSWORD', 'CREDENTIAL', 'AUTH'];
for (const [key, value] of Object.entries(process.env)) {
  if (value && !sensitiveKeys.some(sensitive => key.toUpperCase().includes(sensitive)))
    filteredEnv[key] = value;
  else if (value)
    filteredEnv[key] = '[REDACTED]';
}
```

`process.env` is the input list of key/value pairs (an empty-string value is
falsy and is skipped by both branches). -/

/-- The sensitivity substrings. -/
def sensitiveKeys : List String :=
  ["TOKEN", "KEY", "SECRET", "PASSWORD", "CREDENTIAL", "AUTH"]

/-- `sub` occurs as a contiguous substring of `l`. -/
def containsSub (l sub : List Char) : Bool :=
  l.tails.any (fun t => sub.isPrefixOf t)

/-- `key.toUpperCase().includes(sensitive)` over all sensitivity
substrings.  (`toUpperCase` is modelled by `Char.toUpper`, which agrees on
the ASCII keys involved.) -/
def isSensitiveKey (key : String) : Bool :=
  sensitiveKeys.any (fun s => containsSub (key.toList.map Char.toUpper) s.toList)

/-- The marker written in place of a sensitive value. -/
def redactionMarker : String := "[REDACTED]"

/-- The redaction loop: keeps non-sensitive non-empty values, replaces
sensitive non-empty values with the marker, and drops empty values
entirely. -/
def filteredEnv (env : List (String × String)) : List (String × String) :=
  env.filterMap (fun kv =>
    if kv.2 ≠ "" then
      if !isSensitiveKey kv.1 then some (kv.1, kv.2)
      else some (kv.1, redactionMarker)
    else none)

/-! ## Helper lemmas -/

theorem toList_mk (l : List Char) : (String.mk l).toList = l := rfl

theorem dropWhile_head_false (p : Char → Bool) :
    ∀ (l : List Char) (c : Char) (cs : List Char),
      l.dropWhile p = c :: cs → p c = false := by
  intro l
  induction l with
  | nil => intro c cs h; simp [List.dropWhile] at h
  | cons a as ih =>
    intro c cs h
    rw [List.dropWhile_cons] at h
    by_cases hp : p a
    · simp [hp] at h; exact ih c cs h
    · simp [hp] at h; rw [← h.1]; simpa using hp

theorem forall_mem_dropWhile_iff (p : Char → Bool) (l : List Char) :
    (∀ x ∈ l.dropWhile p, p x) ↔ ∀ x ∈ l, p x := by
  constructor
  · intro h
    have hnil : l.dropWhile p = [] := by
      cases hd : l.dropWhile p with
      | nil => rfl
      | cons c cs =>
        have hc : p c = false := dropWhile_head_false p l c cs hd
        have hct : p c = true := h c (by rw [hd]; exact List.mem_cons_self c cs)
        rw [hct] at hc; cases hc
    exact List.dropWhile_eq_nil_iff.mp hnil
  · intro h x hx
    exact h x ((List.dropWhile_sublist p).subset hx)

theorem jsTrimList_eq_nil_iff (l : List Char) :
    jsTrimList l = [] ↔ ∀ c ∈ l, isJsSpace c := by
  unfold jsTrimList
  rw [List.reverse_eq_nil_iff]
  constructor
  · intro h
    have h2 : ∀ x ∈ (l.dropWhile isJsSpace).reverse, isJsSpace x :=
      List.dropWhile_eq_nil_iff.mp h
    have h3 : ∀ x ∈ l.dropWhile isJsSpace, isJsSpace x := by
      intro x hx; exact h2 x (List.mem_reverse.mpr hx)
    exact (forall_mem_dropWhile_iff isJsSpace l).mp h3
  · intro h
    have : l.dropWhile isJsSpace = [] := List.dropWhile_eq_nil_iff.mpr h
    simp [this]

theorem jsTrim_eq_empty_iff (s : String) :
    jsTrim s = "" ↔ ∀ c ∈ s.toList, isJsSpace c := by
  unfold jsTrim
  rw [show ("" : String) = String.mk [] from rfl]
  constructor
  · intro h
    exact (jsTrimList_eq_nil_iff s.toList).mp (by injection h)
  · intro h
    rw [(jsTrimList_eq_nil_iff s.toList).mpr h]

/-- Dropping as many elements as the `takeWhile` prefix is `dropWhile`. -/
theorem drop_length_takeWhile (p : Char → Bool) :
    ∀ l : List Char, l.drop (l.takeWhile p).length = l.dropWhile p := by
  intro l
  induction l with
  | nil => rfl
  | cons a as ih =>
    by_cases hp : p a
    · simp [List.takeWhile_cons, List.dropWhile_cons, hp, ih]
    · simp [List.takeWhile_cons, List.dropWhile_cons, hp]

/-- The leading token of a command matches the banned-prefix regex for
itself: the token is a literal prefix and is followed by whitespace or the
end of the command. -/
theorem bannedPrefixTest_leadingToken (cmd : String) :
    bannedPrefixTest cmd (leadingToken cmd) = true := by
  unfold bannedPrefixTest leadingToken
  rw [toList_mk]
  apply Bool.and_eq_true_iff.mpr
  constructor
  · exact List.isPrefixOf_iff_prefix.mpr
      (List.takeWhile_prefix (fun c => !isJsSpace c))
  · rw [drop_length_takeWhile (fun c => !isJsSpace c) cmd.toList]
    cases hd : cmd.toList.dropWhile (fun c => !isJsSpace c) with
    | nil => rfl
    | cons c cs =>
      have hc := dropWhile_head_false (fun c => !isJsSpace c) cmd.toList c cs hd
      simpa [afterPrefixOk] using hc

/-- If the leading token is on the deny-list, one of the two
banned-command checks fires. -/
theorem bannedMatch_isSome_of_token (cmd : String)
    (h : leadingToken cmd ∈ bannedCommands) : (bannedMatch cmd).isSome := by
  unfold bannedMatch
  by_cases hex : bannedCommands.contains (baseCommand cmd) = true
  · rw [if_pos hex]; rfl
  · rw [if_neg hex, List.find?_isSome]
    exact ⟨leadingToken cmd, h, bannedPrefixTest_leadingToken cmd⟩

/-- A deny-listed token is non-empty and consists of non-whitespace
characters, so the command does not trim to the empty string. -/
theorem jsTrim_ne_empty_of_token (cmd : String)
    (h : leadingToken cmd ∈ bannedCommands) : jsTrim cmd ≠ "" := by
  intro hempty
  have hall : ∀ c ∈ cmd.toList, isJsSpace c := (jsTrim_eq_empty_iff cmd).mp hempty
  cases htok : cmd.toList.takeWhile (fun c => !isJsSpace c) with
  | nil =>
    unfold leadingToken at h
    rw [htok] at h
    exact absurd h (by decide)
  | cons c cs =>
    have hc : c ∈ cmd.toList.takeWhile (fun c => !isJsSpace c) := by
      rw [htok]; exact List.mem_cons_self c cs
    have hcl : c ∈ cmd.toList :=
      (List.takeWhile_prefix (fun c => !isJsSpace c)).subset hc
    have hns := List.mem_takeWhile_imp hc
    have hs : isJsSpace c = true := hall c hcl
    rw [hs] at hns; simp at hns

/-! ## Claim C1 -/

/-- C1 counterexample: the claim — every command whose first
whitespace-delimited token is deny-listed is rejected as `BannedCommand`
and never spawned — is false for a command with leading whitespace.  For
`" curl foo"` the first whitespace-delimited token is `"curl"`, which is on
the deny-list, yet the exact check sees `split(' ')[0] = ""`, every
`^`-anchored prefix regex fails on the leading space, no dangerous pattern
matches, and the command is handed to the executor: the runner is invoked
and its output is returned with `isError: false` (the shell then runs
`curl`). -/
theorem C1_counterexample :
    firstWsToken " curl foo" = "curl" ∧
      "curl" ∈ bannedCommands ∧
      bashDecision ⟨" curl foo", none, none, none⟩ =
        .execute ⟨" curl foo", 60000, 1048576⟩ ∧
      bashRun (fun _ => .success "curl ran") ⟨" curl foo", none, none, none⟩ =
        ⟨"curl ran", false⟩ := by decide

/-- C1 (amended): for every command whose maximal leading non-whitespace
prefix — the first whitespace-delimited token of a command that does not
start with whitespace — is an entry of the fixed deny-list, the bash
capability rejects with a `BannedCommand` classification and
`isError: true`, and the underlying process is never spawned: the response
is the same for every executor function.  Commands whose deny-listed first
token follows leading whitespace bypass both banned-command checks and are
executed. -/
theorem C1_amended_banned_leading_token (a : BashArgs)
    (h : leadingToken a.command ∈ bannedCommands) :
    (bashDecision a).isBanned = true ∧
      (∀ r : ExecutionPlan → ExecOutcome, (bashRun r a).isError = true) ∧
      ∀ r₁ r₂ : ExecutionPlan → ExecOutcome, bashRun r₁ a = bashRun r₂ a := by
  obtain ⟨name, hname⟩ :=
    Option.isSome_iff_exists.mp (bannedMatch_isSome_of_token a.command h)
  have hdec : bashDecision a = .bannedCommand name := by
    unfold bashDecision
    rw [if_neg (jsTrim_ne_empty_of_token a.command h), hname]
  refine ⟨by rw [hdec]; rfl, fun r => ?_, fun r₁ r₂ => ?_⟩
  · unfold bashRun; rw [hdec]
  · unfold bashRun; rw [hdec]

/-- Witness for C1 (amended) at the spec's own scenario command. -/
theorem C1_amended_witness :
    leadingToken "curl https://example.com" ∈ bannedCommands ∧
      (bashDecision ⟨"curl https://example.com", none, none, none⟩).isBanned = true :=
  ⟨by decide,
    (C1_amended_banned_leading_token
      ⟨"curl https://example.com", none, none, none⟩ (by decide)).1⟩

/-! ## Claim C2 -/

/-- C2 counterexample: the claim — every command containing a raw `;`, `|`,
backtick or `$(...)` is classified `DangerousPattern` regardless of the base
command — is false twice over: `"curl a;b"` contains a raw `;` but the
banned-command check fires first, and `"echo a`b"` contains a raw backtick
but no dangerous pattern matches (the backtick regex needs a pair), so the
command is accepted for execution. -/
theorem C2_counterexample :
    (';' ∈ "curl a;b".toList ∧
      bashDecision ⟨"curl a;b", none, none, none⟩ = .bannedCommand "curl" ∧
      (bashDecision ⟨"curl a;b", none, none, none⟩).isDangerous = false) ∧
    ('\x60' ∈ "echo a`b".toList ∧
      bashDecision ⟨"echo a`b", none, none, none⟩ =
        .execute ⟨"echo a`b", 60000, 1048576⟩) := by decide

/-- The raw-substring triggers of claim C2, as matched by the first three
dangerous patterns: a separator or pipe character, a same-line backtick
pair, or a `$(` closed on the same line. -/
def rawSeparatorOrSubstitution (cmd : String) : Bool :=
  cmd.toList.contains ';' || cmd.toList.contains '|' ||
    backtickTest cmd.toList || dollarParenTest cmd.toList

/-- C2 (amended): for every non-whitespace-only command that contains a raw
`;` or `|`, a same-line backtick pair, or a same-line `$(...)`, and that
does not match the banned-command checks (which run first and take
precedence), the bash capability returns `isError: true` with a
`DangerousPattern` classification.  (A lone backtick is not flagged.) -/
theorem C2_amended_dangerous_pattern (a : BashArgs)
    (hne : jsTrim a.command ≠ "")
    (htrig : rawSeparatorOrSubstitution a.command = true)
    (hban : bannedMatch a.command = none) :
    (bashDecision a).isDangerous = true ∧
      ∀ r : ExecutionPlan → ExecOutcome, (bashRun r a).isError = true := by
  have hfind : ∃ i, findDangerousPattern a.command = some i := by
    unfold findDangerousPattern
    by_cases h0 : sepTest a.command.toList
    · exact ⟨0, by rw [if_pos h0]⟩
    · by_cases h1 : backtickTest a.command.toList
      · exact ⟨1, by rw [if_neg h0, if_pos h1]⟩
      · by_cases h2 : dollarParenTest a.command.toList
        · exact ⟨2, by rw [if_neg h0, if_neg h1, if_pos h2]⟩
        · exfalso
          unfold rawSeparatorOrSubstitution at htrig
          rcases Bool.or_eq_true_iff.mp htrig with htrig | h2t
          · rcases Bool.or_eq_true_iff.mp htrig with htrig | h1t
            · rcases Bool.or_eq_true_iff.mp htrig with hsemi | hpipe
              · exact h0 (List.any_eq_true.mpr
                  ⟨';', by simpa using hsemi, by decide⟩)
              · exact h0 (List.any_eq_true.mpr
                  ⟨'|', by simpa using hpipe, by decide⟩)
            · exact h1 h1t
          · exact h2 h2t
  obtain ⟨i, hi⟩ := hfind
  have hdec : bashDecision a = .dangerousPattern i := by
    unfold bashDecision
    rw [if_neg hne, hban, hi]
  exact ⟨by rw [hdec]; rfl, fun r => by unfold bashRun; rw [hdec]⟩

/-- Witness for C2 (amended) at `"echo a;b"`. -/
theorem C2_amended_witness :
    (jsTrim "echo a;b" ≠ "" ∧ rawSeparatorOrSubstitution "echo a;b" = true ∧
        bannedMatch "echo a;b" = none) ∧
      (bashDecision ⟨"echo a;b", none, none, none⟩).isDangerous = true :=
  ⟨⟨by decide, by decide, by decide⟩,
    (C2_amended_dangerous_pattern ⟨"echo a;b", none, none, none⟩
      (by decide) (by decide) (by decide)).1⟩

/-! ## Claim C3 -/

/-- An accepted command's plan carries exactly the clamped parameters. -/
theorem bashDecision_execute_plan (a : BashArgs) (plan : ExecutionPlan)
    (h : bashDecision a = .execute plan) :
    plan = ⟨a.command, validatedTimeout a.timeout, validatedMaxOutput a.max_output⟩ := by
  unfold bashDecision at h
  repeat' split at h
  all_goals first
    | (cases h; rfl)
    | cases h

/-- The executor's re-clamp is the identity on the value the tool already
clamped. -/
theorem effectiveTimeout_eq_validatedTimeout (t : Option Int) :
    effectiveTimeout t = validatedTimeout t := by
  unfold effectiveTimeout executeCommandTimeout validatedTimeout
  cases t with
  | none => norm_num
  | some x =>
    by_cases hx : x = 0
    · simp [hx]
    · simp only [hx, ne_eq, not_false_eq_true, if_true]
      rcases le_total x 600000 with hle | hle
      · rw [min_eq_left hle]
        have : x ≠ 0 := hx
        simp [this, min_eq_left hle]
      · rw [min_eq_right hle]
        norm_num

/-- C3 counterexample: the claim — the effective timeout is `timeoutMs`
clamped into `[1, 600000]`, so any supplied value below 1 becomes 1 — is
false: a supplied `0` selects the 60000 default and a negative value is
passed through unclamped; neither is the claimed lower bound 1. -/
theorem C3_counterexample :
    (bashDecision ⟨"ls", some 0, none, none⟩ =
        .execute ⟨"ls", 60000, 1048576⟩ ∧
      effectiveTimeout (some 0) = 60000 ∧ (60000 : Int) ≠ 1) ∧
    (bashDecision ⟨"ls", some (-7), none, none⟩ =
        .execute ⟨"ls", -7, 1048576⟩ ∧
      effectiveTimeout (some (-7)) = -7 ∧ (-7 : Int) ≠ 1) := by decide

/-- C3 (amended): for every accepted `executeCommand` request, the
effective timeout (the tool's clamp, re-applied unchanged by
`executeCommand`) is: the default 60000 when `timeout` is absent or `0`;
exactly 600000 for every supplied value above 600000; the supplied value
itself when `1 ≤ timeout ≤ 600000`; and the supplied value unclamped
(no lower bound) when it is negative. -/
theorem C3_amended_timeout_clamp (a : BashArgs) (plan : ExecutionPlan)
    (h : bashDecision a = .execute plan) :
    effectiveTimeout a.timeout = plan.timeoutMs ∧
      (a.timeout = none → plan.timeoutMs = 60000) ∧
      ∀ t : Int, a.timeout = some t →
        (t > 600000 → plan.timeoutMs = 600000) ∧
        (t = 0 → plan.timeoutMs = 60000) ∧
        (1 ≤ t → t ≤ 600000 → plan.timeoutMs = t) ∧
        (t < 0 → plan.timeoutMs = t) := by
  have hplan := bashDecision_execute_plan a plan h
  subst hplan
  refine ⟨effectiveTimeout_eq_validatedTimeout a.timeout, ?_, ?_⟩
  · intro hnone; simp [validatedTimeout, hnone]
  · intro t ht
    simp only [validatedTimeout, ht]
    refine ⟨?_, ?_, ?_, ?_⟩
    · intro hgt
      have hne : t ≠ 0 := by omega
      simp only [hne, ne_eq, not_false_eq_true, if_true]
      rw [min_eq_right (by omega)]
    · intro h0; simp [h0]
    · intro h1 h2
      have hne : t ≠ 0 := by omega
      simp only [hne, ne_eq, not_false_eq_true, if_true]
      rw [min_eq_left h2]
    · intro hlt
      have hne : t ≠ 0 := by omega
      simp only [hne, ne_eq, not_false_eq_true, if_true]
      rw [min_eq_left (by omega)]

/-- Witness for C3 (amended) at `timeout = 700000`. -/
theorem C3_amended_witness :
    bashDecision ⟨"ls", some 700000, none, none⟩ =
        .execute ⟨"ls", 600000, 1048576⟩ ∧
      effectiveTimeout (some 700000) = 600000 :=
  ⟨by decide,
    by
      have h := C3_amended_timeout_clamp ⟨"ls", some 700000, none, none⟩
        ⟨"ls", 600000, 1048576⟩ (by decide)
      have h2 := (h.2.2 700000 rfl).1 (by norm_num)
      rw [h.1, h2]⟩

/-! ## Claim C4 -/

set_option maxRecDepth 20000 in
/-- C4 counterexample: the claim — a command longer than 500 characters is
classified `CommandTooLong` even when it starts with a deny-listed command —
is false: this 505-character command beginning with `curl ` is classified
`BannedCommand` (the length check runs after the banned-command and
dangerous-pattern checks, not as step 2). -/
theorem C4_counterexample :
    (String.mk (['c', 'u', 'r', 'l', ' '] ++ List.replicate 500 'a')).length > 500 ∧
      bashDecision
          ⟨String.mk (['c', 'u', 'r', 'l', ' '] ++ List.replicate 500 'a'),
            none, none, none⟩ =
        .bannedCommand "curl" := by decide

/-- C4 (amended): every non-whitespace-only command longer than 500
characters that does not match the banned-command checks or a dangerous
pattern is rejected with `CommandTooLong` (`isError: true`); the length
check is the fourth check of the pipeline, not the second. -/
theorem C4_amended_length_ceiling (a : BashArgs)
    (hne : jsTrim a.command ≠ "")
    (hban : bannedMatch a.command = none)
    (hdan : findDangerousPattern a.command = none)
    (hlen : a.command.length > 500) :
    bashDecision a = .commandTooLong a.command.length ∧
      ∀ r : ExecutionPlan → ExecOutcome, (bashRun r a).isError = true := by
  have hdec : bashDecision a = .commandTooLong a.command.length := by
    unfold bashDecision
    rw [if_neg hne, hban, hdan, if_pos hlen]
  exact ⟨hdec, fun r => by unfold bashRun; rw [hdec]⟩

set_option maxRecDepth 20000 in
/-- Witness for C4 (amended): 501 repetitions of `a`. -/
theorem C4_amended_witness :
    (jsTrim (String.mk (List.replicate 501 'a')) ≠ "" ∧
        bannedMatch (String.mk (List.replicate 501 'a')) = none ∧
        findDangerousPattern (String.mk (List.replicate 501 'a')) = none ∧
        (String.mk (List.replicate 501 'a')).length > 500) ∧
      bashDecision ⟨String.mk (List.replicate 501 'a'), none, none, none⟩ =
        .commandTooLong 501 :=
  ⟨⟨by decide, by decide, by decide, by decide⟩,
    (C4_amended_length_ceiling ⟨String.mk (List.replicate 501 'a'), none, none, none⟩
      (by decide) (by decide) (by decide) (by decide)).1⟩

/-! ## Claims C5 and C10: environment redaction -/

/-- C5 counterexample: the claim — every environment variable whose key
matches a sensitivity substring has its value replaced by the redaction
marker in the returned mapping — is false for a sensitive variable whose
value is the empty string: it is omitted from the snapshot entirely, so no
entry (marker or otherwise) is present for it. -/
theorem C5_counterexample :
    isSensitiveKey "API_KEY" = true ∧
      ("API_KEY", "") ∈ [("API_KEY", "")] ∧
      filteredEnv [("API_KEY", "")] = [] ∧
      ("API_KEY", redactionMarker) ∉ filteredEnv [("API_KEY", "")] := by decide

/-- C5 (amended): in every snapshot, each entry whose key case-insensitively
contains a sensitivity substring carries the fixed marker `[REDACTED]` —
never the true value — and every sensitive environment variable with a
non-empty value appears with the marker. -/
theorem C5_amended_sensitive_redacted (env : List (String × String)) :
    (∀ k v, (k, v) ∈ filteredEnv env → isSensitiveKey k = true →
        v = redactionMarker) ∧
      ∀ k v, (k, v) ∈ env → isSensitiveKey k = true → v ≠ "" →
        (k, redactionMarker) ∈ filteredEnv env := by
  constructor
  · intro k v hmem hsens
    unfold filteredEnv at hmem
    rw [List.mem_filterMap] at hmem
    obtain ⟨⟨k0, v0⟩, hkv, hf⟩ := hmem
    by_cases hv0 : v0 = ""
    · simp [hv0] at hf
    · by_cases hs0 : isSensitiveKey k0 = true
      · simp only [hv0, ne_eq, not_false_eq_true, if_true, hs0, Bool.not_true,
          Bool.false_eq_true, if_false, Option.some.injEq, Prod.mk.injEq] at hf
        exact hf.2.symm
      · rw [Bool.not_eq_true] at hs0
        simp only [hv0, ne_eq, not_false_eq_true, if_true, hs0, Bool.not_false,
          if_true, Option.some.injEq, Prod.mk.injEq] at hf
        rw [← hf.1] at hsens
        rw [hsens] at hs0
        simp at hs0
  · intro k v hmem hsens hne
    unfold filteredEnv
    rw [List.mem_filterMap]
    exact ⟨(k, v), hmem, by simp [hne, hsens]⟩

/-- Witness for C5 (amended) at the spec's scenario `API_KEY=secret123`. -/
theorem C5_amended_witness :
    (("API_KEY", "secret123") ∈ [("API_KEY", "secret123"), ("HOME", "/root")] ∧
        isSensitiveKey "API_KEY" = true ∧ ("secret123" : String) ≠ "") ∧
      ("API_KEY", redactionMarker) ∈
        filteredEnv [("API_KEY", "secret123"), ("HOME", "/root")] :=
  ⟨⟨by decide, by decide, by decide⟩,
    (C5_amended_sensitive_redacted [("API_KEY", "secret123"), ("HOME", "/root")]).2
      "API_KEY" "secret123" (by decide) (by decide) (by decide)⟩

/-- C10: a variable with an empty value is omitted from the snapshot
entirely — the snapshot's keys are exactly the environment keys with
non-empty values (in order), and a key all of whose bindings are empty
appears with no value at all, marker included, even when the key is
sensitive. -/
theorem C10_empty_value_omitted (env : List (String × String)) :
    (filteredEnv env).map Prod.fst =
        (env.filter (fun kv => kv.2 ≠ "")).map Prod.fst ∧
      ∀ k, (∀ v, (k, v) ∈ env → v = "") → ∀ w, (k, w) ∉ filteredEnv env := by
  constructor
  · induction env with
    | nil => rfl
    | cons kv rest ih =>
      obtain ⟨k, v⟩ := kv
      by_cases hv : v = ""
      · simpa [filteredEnv, List.filterMap_cons, List.filter_cons, hv]
          using ih
      · by_cases hs : isSensitiveKey k = true
        · simpa [filteredEnv, List.filterMap_cons, List.filter_cons, hv, hs]
            using ih
        · simp only [Bool.not_eq_true] at hs
          simpa [filteredEnv, List.filterMap_cons, List.filter_cons, hv, hs]
            using ih
  · intro k hall w hmem
    unfold filteredEnv at hmem
    rw [List.mem_filterMap] at hmem
    obtain ⟨⟨k0, v0⟩, hkv, hf⟩ := hmem
    by_cases hv0 : v0 = ""
    · simp [hv0] at hf
    · have hk0 : k0 = k := by
        by_cases hs0 : isSensitiveKey k0 = true
        · simp only [hv0, ne_eq, not_false_eq_true, if_true, hs0, Bool.not_true,
            Bool.false_eq_true, if_false, Option.some.injEq, Prod.mk.injEq] at hf
          exact hf.1
        · simp only [Bool.not_eq_true] at hs0
          simp only [hv0, ne_eq, not_false_eq_true, if_true, hs0, Bool.not_false,
            if_true, Option.some.injEq, Prod.mk.injEq] at hf
          exact hf.1
      rw [hk0] at hkv
      exact hv0 (hall v0 hkv)

/-- Witness for C10: an empty-valued sensitive variable yields no entry. -/
theorem C10_witness :
    (∀ v, ("AUTH_TOKEN", v) ∈ [("AUTH_TOKEN", ""), ("HOME", "/root")] → v = "") ∧
      ("AUTH_TOKEN", redactionMarker) ∉
        filteredEnv [("AUTH_TOKEN", ""), ("HOME", "/root")] := by
  have hall : ∀ v, ("AUTH_TOKEN", v) ∈ [("AUTH_TOKEN", ""), ("HOME", "/root")] → v = "" := by
    intro v hv
    simp only [List.mem_cons, List.not_mem_nil, or_false, Prod.mk.injEq] at hv
    rcases hv with ⟨_, hv⟩ | ⟨hk, _⟩
    · exact hv
    · exact absurd hk (by decide)
  exact ⟨hall,
    (C10_empty_value_omitted [("AUTH_TOKEN", ""), ("HOME", "/root")]).2
      "AUTH_TOKEN" hall redactionMarker⟩

/-! ## Claim C6: the readFile slice -/

/-- `split` never returns an empty array: a file has at least one line. -/
theorem splitNl_ne_nil (l : List Char) : splitNl l ≠ [] := by
  rw [splitNl.eq_def]
  split
  · simp
  · simp
  · split <;> simp

/-- C6: `readFileSlice` agrees with the claim's slicing specification on
the `FileReadRequest` domain (`offsetLine`, `limitLines` ≥ 1 when given):
an offset beyond the last line fails with `OffsetOutOfRange`, any other
offset/limit combination yields exactly
`lines[startLine .. endLine)` joined with newlines, and omitting both
returns the content unchanged. -/
theorem C6_readFile_slice_matches_spec (content : String)
    (offset limit : Option Nat)
    (hoff : ∀ o, offset = some o → 1 ≤ o)
    (hlim : ∀ k, limit = some k → 1 ≤ k) :
    readFileSlice content offset limit = readFileSliceSpec content offset limit := by
  have hlen : 0 < (splitNl content.toList).length :=
    List.length_pos.mpr (splitNl_ne_nil content.toList)
  cases offset with
  | none =>
    cases limit with
    | none => rfl
    | some k =>
      have hk : 1 ≤ k := hlim k rfl
      have hk0 : k ≠ 0 := by omega
      have hlen0 : (splitNl content.data).length ≠ 0 :=
        Nat.pos_iff_ne_zero.mp hlen
      unfold readFileSlice readFileSliceSpec
      simp [jsTruthyNat, hk0, hlen0, splitNl_ne_nil]
  | some o =>
    have ho : 1 ≤ o := hoff o rfl
    have ho0 : o ≠ 0 := by omega
    unfold readFileSlice readFileSliceSpec
    by_cases hrange : (splitNl content.data).length < o
    · have hge : (splitNl content.data).length ≤ o - 1 := by omega
      cases limit with
      | none => simp [jsTruthyNat, ho0, hge, hrange]
      | some k =>
        have hk : 1 ≤ k := hlim k rfl
        have hk0 : k ≠ 0 := by omega
        simp [jsTruthyNat, ho0, hk0, hge, hrange]
    · have hlt : ¬ (splitNl content.data).length ≤ o - 1 := by omega
      cases limit with
      | none => simp [jsTruthyNat, ho0, hlt, hrange]
      | some k =>
        have hk : 1 ≤ k := hlim k rfl
        have hk0 : k ≠ 0 := by omega
        simp [jsTruthyNat, ho0, hk0, hlt, hrange]

/-- Witness for C6 at a three-line file with `offset = 2`, `limit = 5`. -/
theorem C6_witness :
    readFileSlice "l1\nl2\nl3" (some 2) (some 5) =
        readFileSliceSpec "l1\nl2\nl3" (some 2) (some 5) ∧
      readFileSlice "l1\nl2\nl3" (some 2) (some 5) = .ok "l2\nl3" ∧
      readFileSlice "l1\nl2\nl3" (some 4) none = .offsetOutOfRange 4 3 :=
  ⟨C6_readFile_slice_matches_spec "l1\nl2\nl3" (some 2) (some 5)
      (fun o h => by cases h; decide) (fun k h => by cases h; decide),
    by decide, by decide⟩

/-! ## Claim C7: the write/read round trip -/

/-- C7: writing a file (creating parent directories as needed, overwriting
any previous content, empty content included) and immediately reading it
back with no offset or limit returns exactly the written content. -/
theorem C7_write_read_roundtrip (fs : FsState) (p content : String)
    (hp : p ≠ "") :
    ∃ fs2, writeFileOp fs p content = .ok fs2 ∧
      readFileOp fs2 p none none = .ok content := by
  refine ⟨fs.write p content, ?_, ?_⟩
  · unfold writeFileOp
    rw [if_neg hp]
  · unfold readFileOp
    rw [if_neg hp]
    have hlook : (fs.write p content).lookup p = some content := by
      unfold FsState.write FsState.lookup
      rw [List.find?_cons_of_pos _ (by simp)]
      rfl
    rw [hlook]
    rfl

/-- Witness for C7: a fresh path under a directory that does not exist yet,
then an overwrite of the same path, empty content included. -/
theorem C7_witness :
    (("/tmp/a/b.txt" : String) ≠ "" ∧
      (∃ fs2, writeFileOp [] "/tmp/a/b.txt" "hello" = .ok fs2 ∧
        readFileOp fs2 "/tmp/a/b.txt" none none = .ok "hello")) ∧
      ∃ fs3, writeFileOp [("/tmp/a/b.txt", "hello")] "/tmp/a/b.txt" "" = .ok fs3 ∧
        readFileOp fs3 "/tmp/a/b.txt" none none = .ok "" :=
  ⟨⟨by decide, C7_write_read_roundtrip [] "/tmp/a/b.txt" "hello" (by decide)⟩,
    C7_write_read_roundtrip [("/tmp/a/b.txt", "hello")] "/tmp/a/b.txt" ""
      (by decide)⟩

/-! ## Claim C8: grep distinguishes malformed patterns from empty results -/

/-- C8: for a non-empty pattern, (a) when the regex does not compile the
grep capability returns `isError: true` with the invalid-pattern
classification and the response is independent of the search process (no
filesystem access is consulted); (b) when the regex compiles and the search
exits with code 1 and empty stdout (zero matches), the response is a
success (`isError: false`) carrying the sentinel `No matches found`. -/
theorem C8_grep_invalid_vs_no_match (pattern : String)
    (regexOk : String → Bool) (hne : jsTrim pattern ≠ "") :
    (regexOk pattern = false →
      ∀ proc : GrepProc,
        grepTool regexOk proc pattern = .invalidPattern ∧
          (grepTool regexOk proc pattern).isError = true ∧
          ∀ proc2 : GrepProc,
            grepTool regexOk proc pattern = grepTool regexOk proc2 pattern) ∧
      (regexOk pattern = true →
        ∀ stderr,
          grepTool regexOk (.failure (some 1) "" stderr) pattern =
              .result "No matches found" ∧
            (grepTool regexOk (.failure (some 1) "" stderr) pattern).isError
              = false) := by
  constructor
  · intro hbad proc
    have hval : ∀ q : GrepProc, grepTool regexOk q pattern = .invalidPattern := by
      intro q
      unfold grepTool
      rw [if_neg hne, if_pos (by rw [hbad]; rfl)]
    exact ⟨hval proc, by rw [hval proc]; rfl,
      fun proc2 => by rw [hval proc, hval proc2]⟩
  · intro hok stderr
    have hres : grepTool regexOk (.failure (some 1) "" stderr) pattern =
        .result "No matches found" := by
      unfold grepTool
      rw [if_neg hne, if_neg (by rw [hok]; simp)]
      rfl
    exact ⟨hres, by rw [hres]; rfl⟩

/-- Witness for C8: an oracle rejecting the pattern, and a zero-match run. -/
theorem C8_witness :
    (jsTrim "fo[o" ≠ "" ∧
        grepTool (fun _ => false) (.success "out") "fo[o" = .invalidPattern) ∧
      (grepTool (fun _ => true) (.failure (some 1) "" "") "abc").isError
        = false :=
  ⟨⟨by decide,
      ((C8_grep_invalid_vs_no_match "fo[o" (fun _ => false) (by decide)).1 rfl
        (.success "out")).1⟩,
    ((C8_grep_invalid_vs_no_match "abc" (fun _ => true) (by decide)).2 rfl
      "").2⟩

/-! ## Claim C9: listFiles tolerates per-entry stat failure -/

/-- The listing has exactly one entry per directory child. -/
theorem listEntries_length (dirPath : String) (children : List String)
    (stat : String → Except String StatInfo) :
    (listEntries dirPath children stat).length = children.length :=
  List.length_map children _

/-- C9: when the directory itself stats as a directory, `listFiles`
succeeds — never failing wholly because of one bad child — and returns one
entry per child: a child whose stat fails is a partial `{name, path, error}`
record, every other child a full-metadata record. -/
theorem C9_listFiles_partial_failure (dirPath : String) (s : StatInfo)
    (children : List String) (stat : String → Except String StatInfo)
    (hp : dirPath ≠ "") (hdir : s.isDirectory = true) :
    listFilesOp dirPath (.ok s) children stat =
        .ok (listEntries dirPath children stat) ∧
      (listEntries dirPath children stat).length = children.length ∧
      ∀ i (hi : i < children.length),
        (listEntries dirPath children stat).get
            ⟨i, by rw [listEntries_length]; exact hi⟩ =
          match stat (pathJoin dirPath (children.get ⟨i, hi⟩)) with
          | .ok info =>
            .full (children.get ⟨i, hi⟩)
              (pathJoin dirPath (children.get ⟨i, hi⟩))
              info.isDirectory info.size info.mtimeIso
          | .error e =>
            .failed (children.get ⟨i, hi⟩)
              (pathJoin dirPath (children.get ⟨i, hi⟩)) e := by
  refine ⟨?_, listEntries_length dirPath children stat, ?_⟩
  · unfold listFilesOp
    rw [if_neg hp]
    simp [hdir]
  · intro i hi
    unfold listEntries
    rw [List.get_map]

/-- Witness for C9: two children, the second child's stat fails; the
listing still succeeds with one entry per child. -/
theorem C9_witness :
    (("/d" : String) ≠ "" ∧ (StatInfo.mk true 0 "t").isDirectory = true) ∧
      listFilesOp "/d" (.ok ⟨true, 0, "t"⟩) ["good.txt", "bad.txt"]
          (fun p => if p = "/d/bad.txt" then .error "EACCES"
            else .ok ⟨false, 5, "m"⟩) =
        .ok [.full "good.txt" "/d/good.txt" false 5 "m",
          .failed "bad.txt" "/d/bad.txt" "EACCES"] :=
  ⟨⟨by decide, rfl⟩, by
    have h := C9_listFiles_partial_failure "/d" ⟨true, 0, "t"⟩
      ["good.txt", "bad.txt"]
      (fun p => if p = "/d/bad.txt" then .error "EACCES"
        else .ok ⟨false, 5, "m"⟩)
      (by decide) rfl
    rw [h.1]
    rfl⟩
